import Mathlib

/-!
Verification of the real-time conversation state synchronization engine of
the `crapulex` (bourracho) group-chat repository.

The client-side reconciliation logic is embedded from
`src/frontend/src/components/chat/ChatPage.tsx` (the `useWebSocket`
`onMessage` reducer, `handleReaction`, `sendMessage` and the message-input
form, `groupMessages`), from
`src/frontend/src/components/chat/UserManagementModal.tsx`
(`handleSaveField`), and from the `VoteMenu` component bundled with
`src/frontend/src/components/chat/ConversationAnalysisModal.tsx`.

The backend State Mutators (spec.md §4.1) are not part of the source tree
(only their frontend callers are); where a claim depends on them they are
modelled from the spec, each such definition carrying a doc comment that
starts with `Modelled from the spec:`.
-/

/-- A single reaction entry `{emoji, issuer_id}` as carried in
`MessageResponse.reacts` (frontend type `ReactPost` / spec §3 `reacts`). -/
structure ReactResponse where
  emoji : String
  issuer_id : String
deriving DecidableEq, Repr

/-- The message record as the client sees it (`MessageResponse`).
`votes` is the voter-id → votee-id mapping, kept as an association list;
`timestamp` is the parsed epoch-milliseconds of the timestamp string,
`none` standing for an absent/empty (falsy) timestamp. -/
structure MessageResponse where
  id : String
  conversation_id : String
  issuer_id : String
  content : String
  reacts : List ReactResponse
  votes : List (String × String)
  timestamp : Option Int
deriving DecidableEq, Repr

/-- The conversation record as the client sees it
(`ConversationResponse`). `users` is the member-id list in join order
(the keys of the `users` record; spec §3: insertion order, first member is
the owner). -/
structure ConversationResponse where
  id : String
  name : String
  is_locked : Bool
  is_visible : Bool
  users : List String
deriving DecidableEq, Repr

/-- The `chat_message` / raw-message branch of the WebSocket reducer
(`ChatPage.tsx` lines 80-90 and 150-160): append the new message unless a
message with the same id is already present. -/
def applyChatMessage (prev : List MessageResponse) (newMessage : MessageResponse) :
    List MessageResponse :=
  if prev.any (fun m => m.id == newMessage.id) then prev
  else prev ++ [newMessage]

/-- The message list has pairwise distinct ids. -/
def noDupIds (msgs : List MessageResponse) : Prop :=
  msgs.Pairwise (fun a b => a.id ≠ b.id)

theorem applyChatMessage_noop_of_mem (prev : List MessageResponse)
    (newMessage : MessageResponse)
    (h : ∃ m ∈ prev, m.id = newMessage.id) :
    applyChatMessage prev newMessage = prev := by
  unfold applyChatMessage
  rw [if_pos]
  rw [List.any_eq_true]
  obtain ⟨m, hm, hid⟩ := h
  exact ⟨m, hm, by simpa using hid⟩

theorem applyChatMessage_noDupIds (prev : List MessageResponse)
    (newMessage : MessageResponse) (h : noDupIds prev) :
    noDupIds (applyChatMessage prev newMessage) := by
  unfold applyChatMessage
  by_cases hc : prev.any (fun m => m.id == newMessage.id) = true
  · rw [if_pos hc]; exact h
  · rw [if_neg hc]
    have hall : ∀ m ∈ prev, m.id ≠ newMessage.id := by
      intro m hm
      have hx := List.any_eq_false.mp (Bool.eq_false_iff.mpr hc) m hm
      simpa using hx
    unfold noDupIds
    rw [List.pairwise_append]
    refine ⟨h, List.pairwise_singleton _ _, ?_⟩
    intro a ha b hb
    simp only [List.mem_singleton] at hb
    subst hb
    exact hall a ha

theorem foldl_applyChatMessage_noDupIds (stream : List MessageResponse)
    (fetched : List MessageResponse) (h : noDupIds fetched) :
    noDupIds (stream.foldl applyChatMessage fetched) := by
  induction stream generalizing fetched with
  | nil => exact h
  | cons e rest ih =>
      exact ih _ (applyChatMessage_noDupIds _ _ h)

/-- C1: applying a MessagePosted (`chat_message`) event whose id is already
present leaves the local message list unchanged, and folding any stream of
such events over an authoritative fetch with pairwise-distinct ids yields a
list with pairwise-distinct ids. -/
theorem C1_messagePosted_dedup (fetched stream : List MessageResponse) :
    (∀ prev newMessage, (∃ m ∈ prev, m.id = newMessage.id) →
        applyChatMessage prev newMessage = prev) ∧
    (noDupIds fetched → noDupIds (stream.foldl applyChatMessage fetched)) := by
  constructor
  · exact applyChatMessage_noop_of_mem
  · exact foldl_applyChatMessage_noDupIds stream fetched

/-- Concrete instantiation of C1: a duplicate `chat_message` event is a
no-op, and the merge of a two-element fetch with a stream repeating one of
its ids has pairwise-distinct ids. -/
theorem C1_messagePosted_dedup_witness :
    (applyChatMessage
        [{ id := "m1", conversation_id := "c", issuer_id := "u", content := "a",
           reacts := [], votes := [], timestamp := none }]
        { id := "m1", conversation_id := "c", issuer_id := "u", content := "b",
          reacts := [], votes := [], timestamp := none } =
      [{ id := "m1", conversation_id := "c", issuer_id := "u", content := "a",
         reacts := [], votes := [], timestamp := none }]) ∧
    noDupIds
      ([{ id := "m1", conversation_id := "c", issuer_id := "u", content := "b",
          reacts := [], votes := [], timestamp := none }].foldl applyChatMessage
        [{ id := "m1", conversation_id := "c", issuer_id := "u", content := "a",
           reacts := [], votes := [], timestamp := none }]) := by
  constructor
  · exact (C1_messagePosted_dedup
        [{ id := "m1", conversation_id := "c", issuer_id := "u", content := "a",
           reacts := [], votes := [], timestamp := none }]
        [{ id := "m1", conversation_id := "c", issuer_id := "u", content := "b",
           reacts := [], votes := [], timestamp := none }]).1 _ _
      ⟨_, List.mem_singleton_self _, rfl⟩
  · exact (C1_messagePosted_dedup
        [{ id := "m1", conversation_id := "c", issuer_id := "u", content := "a",
           reacts := [], votes := [], timestamp := none }]
        [{ id := "m1", conversation_id := "c", issuer_id := "u", content := "b",
           reacts := [], votes := [], timestamp := none }]).2
      (by unfold noDupIds; simp)

/-- The tagged union of WebSocket messages dispatched on `message.type` by
the `useWebSocket` `onMessage` reducer in `ChatPage.tsx` (plus the `raw`
variant for a payload without a `type` wrapper, lines 80-90). Variant
fields carry the payload fields the reducer reads. -/
inductive WsEvent where
  | raw (msg : MessageResponse)
  | chat_message (msg : MessageResponse)
  | conversation_name_changed (new_name : String) (changed_by : Option String)
  | user_data_changed (user_id : String) (pseudo smiley : Option String)
  | user_joined (user_id : String)
  | conversation_lock_changed (is_locked : Bool) (changed_by : Option String)
  | conversation_visibility_changed (is_visible : Bool) (changed_by : Option String)
  | message_reaction_updated (message_id : String) (msg : MessageResponse)
  | message_vote_updated (message_id : String) (msg : MessageResponse)
deriving DecidableEq, Repr

/-- The local React state of `ChatPage` that the `onMessage` reducer
mutates: the conversation record, the message list, and the two
analysis-modal booleans set by the lock handler. -/
structure ClientState where
  conversation : ConversationResponse
  messages : List MessageResponse
  shouldShowAnalysisButton : Bool
  showAnalysisModal : Bool
deriving DecidableEq, Repr

/-- The `message_reaction_updated` / `message_vote_updated` branch
(`ChatPage.tsx` lines 211-232): `prev.map(msg => msg.id === message.message_id
? updatedMessage : msg)`. -/
def replaceById (prev : List MessageResponse) (message_id : String)
    (updatedMessage : MessageResponse) : List MessageResponse :=
  prev.map (fun msg => if msg.id = message_id then updatedMessage else msg)

/-- The `useWebSocket` `onMessage` reducer of `ChatPage.tsx` (lines
78-250), restricted to its effect on the local React state.  Toast
notifications, window `CustomEvent` dispatches and the
`fetchConversationUserData` refetch (the whole effect of the
`user_data_changed` and `user_joined` branches) do not touch this state. -/
def applyWsEvent (s : ClientState) : WsEvent → ClientState
  | .raw msg => { s with messages := applyChatMessage s.messages msg }
  | .chat_message msg => { s with messages := applyChatMessage s.messages msg }
  | .conversation_name_changed new_name _ =>
      { s with conversation := { s.conversation with name := new_name } }
  | .user_data_changed _ _ _ => s
  | .user_joined _ => s
  | .conversation_lock_changed locked _ =>
      { s with
        conversation :=
          if s.conversation.is_locked = locked then s.conversation
          else { s.conversation with is_locked := locked },
        shouldShowAnalysisButton := locked,
        showAnalysisModal := if locked then s.showAnalysisModal else false }
  | .conversation_visibility_changed visible _ =>
      { s with conversation := { s.conversation with is_visible := visible } }
  | .message_reaction_updated message_id msg =>
      { s with messages := replaceById s.messages message_id msg }
  | .message_vote_updated message_id msg =>
      { s with messages := replaceById s.messages message_id msg }

theorem applyChatMessage_idem (prev : List MessageResponse)
    (m : MessageResponse) :
    applyChatMessage (applyChatMessage prev m) m = applyChatMessage prev m := by
  unfold applyChatMessage
  by_cases hc : prev.any (fun m2 => m2.id == m.id) = true
  · rw [if_pos hc, if_pos hc]
  · rw [if_neg hc, if_pos]
    rw [List.any_append]
    simp

theorem replaceById_idem (prev : List MessageResponse) (mid : String)
    (u : MessageResponse) :
    replaceById (replaceById prev mid u) mid u = replaceById prev mid u := by
  unfold replaceById
  rw [List.map_map]
  apply List.map_congr_left
  intro m _
  by_cases h : m.id = mid <;> by_cases h2 : u.id = mid <;> simp [h, h2]

/-- C2: every WebSocket event variant handled by the client reducer is
idempotent on the local conversation-and-message state, and a
`conversation_lock_changed` event requesting the current lock value leaves
the conversation record unchanged. -/
theorem C2_event_application_idempotent (s : ClientState) (e : WsEvent) :
    applyWsEvent (applyWsEvent s e) e = applyWsEvent s e ∧
    (∀ locked cb, s.conversation.is_locked = locked →
      (applyWsEvent s (.conversation_lock_changed locked cb)).conversation =
        s.conversation) := by
  constructor
  · cases e with
    | raw msg => simp [applyWsEvent, applyChatMessage_idem]
    | chat_message msg => simp [applyWsEvent, applyChatMessage_idem]
    | conversation_name_changed n cb => rfl
    | user_data_changed u p sm => rfl
    | user_joined u => rfl
    | conversation_lock_changed locked cb =>
        by_cases h : s.conversation.is_locked = locked
        · simp [applyWsEvent, h]
        · simp [applyWsEvent, h]
    | conversation_visibility_changed v cb => rfl
    | message_reaction_updated mid msg =>
        simp [applyWsEvent, replaceById_idem]
    | message_vote_updated mid msg =>
        simp [applyWsEvent, replaceById_idem]
  · intro locked cb h
    simp [applyWsEvent, h]

/-- Concrete instantiation of C2: a duplicate lock event carrying the
current lock value leaves the concrete conversation record unchanged. -/
theorem C2_event_application_idempotent_witness :
    (applyWsEvent
        { conversation := { id := "c", name := "n", is_locked := true,
                            is_visible := false, users := ["u1"] },
          messages := [], shouldShowAnalysisButton := false,
          showAnalysisModal := false }
        (.conversation_lock_changed true none)).conversation =
      { id := "c", name := "n", is_locked := true, is_visible := false,
        users := ["u1"] } := by
  exact (C2_event_application_idempotent
      { conversation := { id := "c", name := "n", is_locked := true,
                          is_visible := false, users := ["u1"] },
        messages := [], shouldShowAnalysisButton := false,
        showAnalysisModal := false }
      (.conversation_lock_changed true none)).2 true none rfl

/-- C4: a `message_reaction_updated` or `message_vote_updated` event
replaces, position by position, exactly the messages whose id equals the
event's `message_id` with the carried snapshot, leaving every other
message and the list length unchanged. -/
theorem C4_snapshot_replace_frame (s : ClientState) (mid : String)
    (snap : MessageResponse) :
    (∀ i : Nat,
      (applyWsEvent s (.message_reaction_updated mid snap)).messages[i]? =
        (s.messages[i]?).map (fun m => if m.id = mid then snap else m)) ∧
    (∀ i : Nat,
      (applyWsEvent s (.message_vote_updated mid snap)).messages[i]? =
        (s.messages[i]?).map (fun m => if m.id = mid then snap else m)) ∧
    (applyWsEvent s (.message_reaction_updated mid snap)).messages.length =
      s.messages.length ∧
    (applyWsEvent s (.message_vote_updated mid snap)).messages.length =
      s.messages.length := by
  refine ⟨?_, ?_, ?_, ?_⟩ <;>
    simp [applyWsEvent, replaceById, List.getElem?_map]

/-- The error taxonomy of the State Mutators (spec §7). -/
inductive MutatorError where
  | Forbidden
  | Locked
  | NotLocked
  | NotFound
  | AlreadyMember
deriving DecidableEq, Repr

/-- The `MessageUpdate` body sent by `apiApiPatchMessage`: the message id
plus the optional `reacts` / `votes` payloads (absent fields as `none`). -/
structure MessageUpdate where
  id : String
  reacts : Option (List ReactResponse)
  votes : Option (List (String × String))
deriving DecidableEq, Repr

/-- The data the `VoteMenu` component renders when it renders at all: the
member list derived from `Object.keys(conversation.users)` and the current
user's vote looked up in `message.votes`. -/
structure VoteMenuView where
  conversationUsers : List String
  currentUserVote : Option String
deriving DecidableEq, Repr

/-- The `handleReaction` callback of `ChatPage.tsx` (lines 551-588): when
the conversation is locked it shows an error toast and returns without
issuing any update; otherwise it issues a `MessageUpdate` carrying the
single `{emoji, issuer_id}` react. -/
def handleReaction (conversation : ConversationResponse)
    (userId messageId emoji : String) : Option MessageUpdate :=
  if conversation.is_locked then none
  else some { id := messageId, reacts := some [⟨emoji, userId⟩], votes := none }

/-- The `VoteMenu` component (bundled after `ConversationAnalysisModal.tsx`,
lines 228-242 of its source): it returns `null` unless the conversation is
locked, so no vote button exists while unlocked. -/
def voteMenuRender (conversation : ConversationResponse)
    (message : MessageResponse) (currentUserId : String) : Option VoteMenuView :=
  if conversation.is_locked = false then none
  else some { conversationUsers := conversation.users,
              currentUserVote := message.votes.lookup currentUserId }

/-- Modelled from the spec: the designated owner of a conversation, absent
from `src/` (spec §3: the first/earliest member of the join-ordered member
list is the owner). -/
def owner (conversation : ConversationResponse) : Option String :=
  conversation.users.head?

/-- Modelled from the spec: the toggle step of the backend `React` State
Mutator (§4.1), absent from `src/` — if the issuer already has exactly
this emoji recorded, remove it; otherwise append `{emoji, issuer}`. -/
def reactToggle (reacts : List ReactResponse) (issuer emoji : String) :
    List ReactResponse :=
  if reacts.any (fun r => r.emoji == emoji && r.issuer_id == issuer) then
    reacts.filter (fun r => !(r.emoji == emoji && r.issuer_id == issuer))
  else reacts ++ [⟨emoji, issuer⟩]

/-- Modelled from the spec: the backend `React` State Mutator (§4.1),
absent from `src/` — fails with `Locked` if the conversation is locked,
otherwise applies the toggle and returns the full updated message. -/
def reactMutator (conversation : ConversationResponse)
    (message : MessageResponse) (issuer emoji : String) :
    Except MutatorError MessageResponse :=
  if conversation.is_locked then .error .Locked
  else .ok { message with reacts := reactToggle message.reacts issuer emoji }

/-- Modelled from the spec: the last-write-wins votes-map update of the
backend `Vote` State Mutator (§4.1), absent from `src/`. -/
def voteWrite (votes : List (String × String)) (voter votee : String) :
    List (String × String) :=
  votes.filter (fun p => !(p.1 == voter)) ++ [(voter, votee)]

/-- Modelled from the spec: the backend `Vote` State Mutator (§4.1),
absent from `src/` — fails with `NotLocked` unless the conversation is
locked, otherwise overwrites the voter's prior vote. -/
def voteMutator (conversation : ConversationResponse)
    (message : MessageResponse) (voter votee : String) :
    Except MutatorError MessageResponse :=
  if conversation.is_locked = false then .error .NotLocked
  else .ok { message with votes := voteWrite message.votes voter votee }

/-- Sample locked conversation used by concrete witnesses. -/
def sampleLockedConversation : ConversationResponse :=
  { id := "c", name := "n", is_locked := true, is_visible := false,
    users := ["u1", "u2"] }

/-- Sample unlocked conversation used by concrete witnesses. -/
def sampleOpenConversation : ConversationResponse :=
  { id := "c", name := "n", is_locked := false, is_visible := true,
    users := ["u1", "u2"] }

/-- Sample message used by concrete witnesses. -/
def sampleMessage : MessageResponse :=
  { id := "m1", conversation_id := "c", issuer_id := "u1", content := "hi",
    reacts := [], votes := [], timestamp := some 0 }

/-- C3: the react window and the vote window are mutually exclusive — when
the conversation is locked, React fails with `Locked` and `handleReaction`
issues no update; when it is unlocked, Vote fails with `NotLocked` and the
vote menu renders nothing. -/
theorem C3_react_vote_windows_exclusive (conversation : ConversationResponse)
    (message : MessageResponse)
    (userId messageId emoji voter votee currentUserId : String) :
    (conversation.is_locked = true →
      handleReaction conversation userId messageId emoji = none ∧
      reactMutator conversation message userId emoji =
        .error MutatorError.Locked) ∧
    (conversation.is_locked = false →
      voteMenuRender conversation message currentUserId = none ∧
      voteMutator conversation message voter votee =
        .error MutatorError.NotLocked) := by
  constructor <;> intro h <;>
    simp [handleReaction, reactMutator, voteMenuRender, voteMutator, h]

/-- Concrete instantiation of C3: a locked conversation yields no reaction
update, an unlocked one renders no vote menu. -/
theorem C3_react_vote_windows_exclusive_witness :
    handleReaction sampleLockedConversation "u1" "m1" "x" = none ∧
    voteMenuRender sampleOpenConversation sampleMessage "u1" = none :=
  ⟨((C3_react_vote_windows_exclusive sampleLockedConversation sampleMessage
        "u1" "m1" "x" "u1" "u2" "u1").1 rfl).1,
   ((C3_react_vote_windows_exclusive sampleOpenConversation sampleMessage
        "u1" "m1" "x" "u1" "u2" "u1").2 rfl).1⟩

/-- Embedding of JavaScript `String.prototype.trim()`: drop whitespace
characters from both ends (kept kernel-computable by working on the
character list). -/
def jsTrim (s : String) : String :=
  String.mk
    (((s.data.dropWhile Char.isWhitespace).reverse.dropWhile
        Char.isWhitespace).reverse)

/-- The `ConversationRenamed` domain event (spec §3). -/
structure ConversationRenamedEvent where
  conversation_id : String
  new_name : String
  changed_by : String
deriving DecidableEq, Repr

/-- Modelled from the spec: the backend `RenameConversation` State Mutator
(§4.1), absent from `src/` — fails with `Forbidden` unless the actor is
the owner; otherwise applies the trimmed name (falling back to the
previous name when the trimmed input is empty) and emits
`ConversationRenamed`. -/
def renameConversation (conversation : ConversationResponse)
    (actor newName : String) :
    Except MutatorError (ConversationResponse × ConversationRenamedEvent) :=
  if owner conversation ≠ some actor then .error .Forbidden
  else
    let applied := if jsTrim newName = "" then conversation.name else jsTrim newName
    .ok ({ conversation with name := applied },
         { conversation_id := conversation.id, new_name := applied,
           changed_by := actor })

/-- C5: a non-owner's rename is rejected with `Forbidden`; no updated
conversation and no `ConversationRenamed` event is produced. -/
theorem C5_rename_owner_only (conversation : ConversationResponse)
    (actor newName : String) (h : owner conversation ≠ some actor) :
    renameConversation conversation actor newName =
      .error MutatorError.Forbidden ∧
    ∀ result, renameConversation conversation actor newName ≠ .ok result := by
  have he : renameConversation conversation actor newName =
      .error MutatorError.Forbidden := by
    unfold renameConversation
    rw [if_pos h]
  exact ⟨he, fun result hr => by rw [he] at hr; exact Except.noConfusion hr⟩

/-- Concrete instantiation of C5: the second member is not the owner and
is rejected with `Forbidden`. -/
theorem C5_rename_owner_only_witness :
    renameConversation sampleOpenConversation "u2" "newname" =
      .error MutatorError.Forbidden :=
  (C5_rename_owner_only sampleOpenConversation "u2" "newname" (by decide)).1

/-- The `conversation_name` branch of `handleSaveField` in
`UserManagementModal.tsx` (lines 172-200): the body sent to
`apiApiPatchConversation` and the locally applied conversation both use
the trimmed input, falling back to `conversation.name` when it is empty. -/
def handleSaveConversationName (conversation : ConversationResponse)
    (conversationNameInput : String) : String × ConversationResponse :=
  let n := if jsTrim conversationNameInput = "" then conversation.name
           else jsTrim conversationNameInput
  (n, { conversation with name := n })

/-- C6: saving a rename sends and applies the trimmed input when it is
non-empty and falls back to the previous name when the trimmed input is
empty. -/
theorem C6_rename_trim_fallback (conversation : ConversationResponse)
    (input : String) :
    (jsTrim input ≠ "" →
      (handleSaveConversationName conversation input).1 = jsTrim input ∧
      (handleSaveConversationName conversation input).2.name = jsTrim input) ∧
    (jsTrim input = "" →
      (handleSaveConversationName conversation input).1 = conversation.name ∧
      (handleSaveConversationName conversation input).2.name =
        conversation.name) := by
  constructor <;> intro h <;> simp [handleSaveConversationName, h]

/-- Concrete instantiation of C6: a padded name is trimmed, a whitespace
name falls back to the previous name. -/
theorem C6_rename_trim_fallback_witness :
    (handleSaveConversationName sampleOpenConversation " party ").1 =
      jsTrim " party " ∧
    (handleSaveConversationName sampleOpenConversation "  ").1 =
      sampleOpenConversation.name :=
  ⟨((C6_rename_trim_fallback sampleOpenConversation " party ").1
      (by decide)).1,
   ((C6_rename_trim_fallback sampleOpenConversation "  ").2 (by decide)).1⟩

/-- The membership field being edited in `UserManagementModal.tsx`
(`editingField`, restricted to the two per-user fields). -/
inductive EditField where
  | pseudo
  | smiley
deriving DecidableEq, Repr

/-- The `updateData` body built by the pseudo/smiley branch of
`handleSaveField` (`UserManagementModal.tsx` lines 203-221): only the
edited field is set, to `input.trim() || undefined` (so an absent field is
`none`); the other field is never present.  Returned as the
(pseudo, smiley) payload pair. -/
def mkMembershipUpdate (editingField : EditField) (input : String) :
    Option String × Option String :=
  match editingField with
  | .pseudo => (if jsTrim input = "" then none else some (jsTrim input), none)
  | .smiley => (none, if jsTrim input = "" then none else some (jsTrim input))

/-- The per-(conversation, user) membership data (spec §3
`ConversationMembership`): optional `pseudo` and `smiley` overrides. -/
structure MembershipData where
  pseudo : Option String
  smiley : Option String
deriving DecidableEq, Repr

/-- Modelled from the spec: the per-field application rule of the backend
`UpdateMembershipData` State Mutator (§4.1), absent from `src/` — an
absent payload field leaves the existing value unchanged; an explicit
empty string clears it. -/
def applyFieldUpdate (stored : Option String) (payload : Option String) :
    Option String :=
  match payload with
  | none => stored
  | some s => if s = "" then none else some s

/-- Modelled from the spec: the stored-state update of the backend
`UpdateMembershipData` State Mutator (§4.1), absent from `src/`, applying
the two independently optional payload fields. -/
def updateMembershipData (stored : MembershipData)
    (pseudoField smileyField : Option String) : MembershipData :=
  { pseudo := applyFieldUpdate stored.pseudo pseudoField,
    smiley := applyFieldUpdate stored.smiley smileyField }

/-- C7: pseudo and smiley are independently optional — the client payload
contains only the edited field, an absent field leaves the stored value
unchanged (editing pseudo never alters smiley and vice versa), and an
explicit empty string clears the field. -/
theorem C7_membership_update_independent (stored : MembershipData)
    (input : String) :
    (mkMembershipUpdate .pseudo input).2 = none ∧
    (mkMembershipUpdate .smiley input).1 = none ∧
    (updateMembershipData stored (mkMembershipUpdate .pseudo input).1
        (mkMembershipUpdate .pseudo input).2).smiley = stored.smiley ∧
    (updateMembershipData stored (mkMembershipUpdate .smiley input).1
        (mkMembershipUpdate .smiley input).2).pseudo = stored.pseudo ∧
    (updateMembershipData stored none none) = stored ∧
    applyFieldUpdate stored.pseudo (some "") = none ∧
    applyFieldUpdate stored.smiley (some "") = none := by
  refine ⟨rfl, rfl, rfl, rfl, ?_, by simp [applyFieldUpdate],
    by simp [applyFieldUpdate]⟩
  cases stored
  rfl

/-- The disabled predicate of the message `Textarea`
(`ChatPage.tsx` line 992): `isSending || conversation.is_locked`. -/
def messageInputDisabled (isSending : Bool)
    (conversation : ConversationResponse) : Bool :=
  isSending || conversation.is_locked

/-- The disabled predicate of the `PhotoUploader`
(`ChatPage.tsx` line 999): `isSending || conversation.is_locked`. -/
def photoUploaderDisabled (isSending : Bool)
    (conversation : ConversationResponse) : Bool :=
  isSending || conversation.is_locked

/-- The disabled predicate of the `AudioRecorder`
(`ChatPage.tsx` line 1006): `isSending || conversation.is_locked`. -/
def audioRecorderDisabled (isSending : Bool)
    (conversation : ConversationResponse) : Bool :=
  isSending || conversation.is_locked

/-- The disabled predicate of the submit button (`ChatPage.tsx` lines
1012-1014): `!messageInput.trim() || isSending || conversation?.is_locked`. -/
def sendButtonDisabled (messageInput : String) (isSending : Bool)
    (conversation : ConversationResponse) : Bool :=
  (jsTrim messageInput == "") || isSending || conversation.is_locked

/-- Modelled from the spec: the backend `PostMessage` State Mutator
(§4.1), absent from `src/` — fails with `Locked` if the conversation is
locked, otherwise appends a server-timestamped message. -/
def postMessage (conversation : ConversationResponse)
    (issuer content newId : String) (serverTs : Int) :
    Except MutatorError MessageResponse :=
  if conversation.is_locked then .error .Locked
  else .ok { id := newId, conversation_id := conversation.id,
             issuer_id := issuer, content := content, reacts := [],
             votes := [], timestamp := some serverTs }

/-- C8: while the conversation is locked, PostMessage fails with `Locked`
and every client-side posting control (text area, photo uploader, audio
recorder, send button) is disabled. -/
theorem C8_postMessage_locked (conversation : ConversationResponse)
    (isSending : Bool) (messageInput issuer content newId : String)
    (serverTs : Int) (h : conversation.is_locked = true) :
    postMessage conversation issuer content newId serverTs =
      .error MutatorError.Locked ∧
    messageInputDisabled isSending conversation = true ∧
    photoUploaderDisabled isSending conversation = true ∧
    audioRecorderDisabled isSending conversation = true ∧
    sendButtonDisabled messageInput isSending conversation = true := by
  simp [postMessage, messageInputDisabled, photoUploaderDisabled,
    audioRecorderDisabled, sendButtonDisabled, h]

/-- Concrete instantiation of C8: with the sample locked conversation the
mutator fails with `Locked` and all four posting controls are disabled. -/
theorem C8_postMessage_locked_witness :
    postMessage sampleLockedConversation "u1" "hello" "m9" 5 =
      .error MutatorError.Locked ∧
    messageInputDisabled false sampleLockedConversation = true ∧
    photoUploaderDisabled false sampleLockedConversation = true ∧
    audioRecorderDisabled false sampleLockedConversation = true ∧
    sendButtonDisabled "hello" false sampleLockedConversation = true :=
  C8_postMessage_locked sampleLockedConversation false "hello" "u1" "hello"
    "m9" 5 rfl

theorem reactToggle_mem_iff (reacts : List ReactResponse)
    (issuer emoji : String) :
    ((⟨emoji, issuer⟩ : ReactResponse) ∈ reactToggle reacts issuer emoji ↔
      (⟨emoji, issuer⟩ : ReactResponse) ∉ reacts) := by
  unfold reactToggle
  by_cases hc : reacts.any (fun r => r.emoji == emoji && r.issuer_id == issuer) = true
  · rw [if_pos hc]
    have hin : (⟨emoji, issuer⟩ : ReactResponse) ∈ reacts := by
      obtain ⟨r, hr, hp⟩ := List.any_eq_true.mp hc
      rw [Bool.and_eq_true] at hp
      obtain ⟨h1, h2⟩ := hp
      have : r = (⟨emoji, issuer⟩ : ReactResponse) := by
        cases r
        simp only [beq_iff_eq] at h1 h2
        simp [h1, h2]
      exact this ▸ hr
    simp only [List.mem_filter]
    constructor
    · rintro ⟨-, hkeep⟩
      simp at hkeep
    · intro hno
      exact absurd hin hno
  · rw [if_neg hc]
    have hout : (⟨emoji, issuer⟩ : ReactResponse) ∉ reacts := by
      intro hmem
      apply hc
      exact List.any_eq_true.mpr ⟨_, hmem, by simp⟩
    simp [hout]

theorem reactToggle_nodup (reacts : List ReactResponse)
    (issuer emoji : String) (h : reacts.Nodup) :
    (reactToggle reacts issuer emoji).Nodup := by
  unfold reactToggle
  by_cases hc : reacts.any (fun r => r.emoji == emoji && r.issuer_id == issuer) = true
  · rw [if_pos hc]
    exact h.filter _
  · rw [if_neg hc]
    have hout : (⟨emoji, issuer⟩ : ReactResponse) ∉ reacts := by
      intro hmem
      apply hc
      exact List.any_eq_true.mpr ⟨_, hmem, by simp⟩
    rw [List.nodup_append]
    exact ⟨h, List.nodup_singleton _, by
      intro a ha hb
      simp only [List.mem_singleton] at hb
      subst hb
      exact hout ha⟩

theorem foldl_reactToggle_nodup (ops : List (String × String))
    (reacts : List ReactResponse) (h : reacts.Nodup) :
    (ops.foldl (fun s p => reactToggle s p.1 p.2) reacts).Nodup := by
  induction ops generalizing reacts with
  | nil => exact h
  | cons op rest ih => exact ih _ (reactToggle_nodup _ _ _ h)

/-- C9: re-reacting with the same emoji toggles the pair's presence (it is
present after the call exactly when it was absent before), and any
sequence of React toggles preserves the invariant that the reacts list
contains no two identical (emoji, issuer) entries. -/
theorem C9_react_toggle_alternation (reacts : List ReactResponse)
    (issuer emoji : String) (ops : List (String × String))
    (h : reacts.Nodup) :
    ((⟨emoji, issuer⟩ : ReactResponse) ∈ reactToggle reacts issuer emoji ↔
      (⟨emoji, issuer⟩ : ReactResponse) ∉ reacts) ∧
    (ops.foldl (fun s p => reactToggle s p.1 p.2) reacts).Nodup :=
  ⟨reactToggle_mem_iff reacts issuer emoji,
   foldl_reactToggle_nodup ops reacts h⟩

/-- Concrete instantiation of C9: starting from an empty reacts list, a
first toggle makes the pair present, and the double-toggle sequence leaves
a list with no duplicate (emoji, issuer) entries. -/
theorem C9_react_toggle_alternation_witness :
    ((⟨"e", "u"⟩ : ReactResponse) ∈ reactToggle [] "u" "e" ↔
      (⟨"e", "u"⟩ : ReactResponse) ∉ ([] : List ReactResponse)) ∧
    ([("u", "e"), ("u", "e")].foldl
        (fun s p => reactToggle s p.1 p.2) ([] : List ReactResponse)).Nodup :=
  C9_react_toggle_alternation [] "u" "e" [("u", "e"), ("u", "e")]
    List.nodup_nil

/-- A message group as built by `groupMessages` (`ChatPage.tsx` lines
485-528): the group's `userId`, its message list, and its running
`timestamp` (the timestamp of the last message added, `none` standing for
a falsy timestamp string). -/
structure MessageGroup where
  userId : String
  messages : List MessageResponse
  timestamp : Option Int
deriving DecidableEq, Repr

/-- A fresh single-message group (`groups.push({userId: message.issuer_id,
messages: [message], timestamp: message.timestamp || ''})`). -/
def newGroup (message : MessageResponse) : MessageGroup :=
  { userId := message.issuer_id, messages := [message],
    timestamp := message.timestamp }

/-- Extending the last group (`lastGroup.messages.push(message);
lastGroup.timestamp = message.timestamp`). -/
def extendGroup (lastGroup : MessageGroup) (message : MessageResponse) :
    MessageGroup :=
  { userId := lastGroup.userId,
    messages := lastGroup.messages ++ [message],
    timestamp := message.timestamp }

/-- The grouping condition of `groupMessages`: same issuer as the last
group, both timestamps truthy, and the time difference at most 30000 ms. -/
def groupCond (lastGroup : MessageGroup) (message : MessageResponse) : Bool :=
  lastGroup.userId == message.issuer_id &&
    (match message.timestamp, lastGroup.timestamp with
     | some mt, some gt => decide (mt - gt ≤ 30000)
     | _, _ => false)

/-- One `forEach` step of `groupMessages`: extend the last group when the
grouping condition holds, otherwise push a new group. -/
def addToGroups (groups : List MessageGroup) (message : MessageResponse) :
    List MessageGroup :=
  match groups.getLast? with
  | none => [newGroup message]
  | some lastGroup =>
      if groupCond lastGroup message then
        groups.dropLast ++ [extendGroup lastGroup message]
      else groups ++ [newGroup message]

/-- The `groupMessages` helper of `ChatPage.tsx` (lines 485-528). -/
def groupMessages (messages : List MessageResponse) : List MessageGroup :=
  messages.foldl addToGroups []

/-- Concatenation of the groups' message lists, in order. -/
def concatGroups : List MessageGroup → List MessageResponse
  | [] => []
  | g :: rest => g.messages ++ concatGroups rest

theorem concatGroups_append (l1 l2 : List MessageGroup) :
    concatGroups (l1 ++ l2) = concatGroups l1 ++ concatGroups l2 := by
  induction l1 with
  | nil => rfl
  | cons g gs ih => simp [concatGroups, ih]

theorem addToGroups_concat (gs : List MessageGroup) (g : MessageGroup)
    (m : MessageResponse) :
    addToGroups (gs ++ [g]) m =
      if groupCond g m then gs ++ [extendGroup g m]
      else (gs ++ [g]) ++ [newGroup m] := by
  unfold addToGroups
  rw [List.getLast?_concat, List.dropLast_concat]

theorem addToGroups_concatGroups (groups : List MessageGroup)
    (m : MessageResponse) :
    concatGroups (addToGroups groups m) = concatGroups groups ++ [m] := by
  rcases List.eq_nil_or_concat groups with rfl | ⟨gs, g, h⟩
  · simp [addToGroups, concatGroups, newGroup]
  · rw [List.concat_eq_append] at h
    subst h
    rw [addToGroups_concat]
    by_cases hc : groupCond g m = true
    · rw [if_pos hc]
      simp [concatGroups_append, concatGroups, extendGroup]
    · rw [if_neg hc]
      simp [concatGroups_append, concatGroups, newGroup]

theorem foldl_addToGroups_concatGroups (msgs : List MessageResponse)
    (groups : List MessageGroup) :
    concatGroups (msgs.foldl addToGroups groups) =
      concatGroups groups ++ msgs := by
  induction msgs generalizing groups with
  | nil => simp
  | cons m rest ih =>
      rw [List.foldl_cons, ih, addToGroups_concatGroups]
      simp

theorem groupCond_userId (g : MessageGroup) (m : MessageResponse)
    (h : groupCond g m = true) : m.issuer_id = g.userId := by
  unfold groupCond at h
  rw [Bool.and_eq_true] at h
  have h1 := h.1
  rw [beq_iff_eq] at h1
  exact h1.symm

theorem addToGroups_issuers (groups : List MessageGroup)
    (m : MessageResponse)
    (h : ∀ g ∈ groups, ∀ m2 ∈ g.messages, m2.issuer_id = g.userId) :
    ∀ g ∈ addToGroups groups m, ∀ m2 ∈ g.messages,
      m2.issuer_id = g.userId := by
  rcases List.eq_nil_or_concat groups with rfl | ⟨gs, g0, hg⟩
  · intro g hg m2 hm2
    simp only [addToGroups, List.getLast?_nil, List.mem_singleton] at hg
    subst hg
    simp only [newGroup, List.mem_singleton] at hm2 ⊢
    subst hm2
    rfl
  · rw [List.concat_eq_append] at hg
    subst hg
    rw [addToGroups_concat]
    by_cases hc : groupCond g0 m = true
    · rw [if_pos hc]
      intro g hg m2 hm2
      rcases List.mem_append.mp hg with hgs | hlast
      · exact h g (List.mem_append.mpr (Or.inl hgs)) m2 hm2
      · simp only [List.mem_singleton] at hlast
        subst hlast
        simp only [extendGroup, List.mem_append, List.mem_singleton] at hm2
        rcases hm2 with hold | hnew
        · exact h g0 (List.mem_append.mpr (Or.inr (List.mem_singleton_self _)))
            m2 hold
        · rw [hnew]
          exact groupCond_userId g0 m hc
    · rw [if_neg hc]
      intro g hg m2 hm2
      rcases List.mem_append.mp hg with hgs | hlast
      · exact h g hgs m2 hm2
      · simp only [List.mem_singleton] at hlast
        subst hlast
        simp only [newGroup, List.mem_singleton] at hm2
        subst hm2
        rfl

theorem foldl_addToGroups_issuers (msgs : List MessageResponse)
    (groups : List MessageGroup)
    (h : ∀ g ∈ groups, ∀ m2 ∈ g.messages, m2.issuer_id = g.userId) :
    ∀ g ∈ msgs.foldl addToGroups groups, ∀ m2 ∈ g.messages,
      m2.issuer_id = g.userId := by
  induction msgs generalizing groups with
  | nil => exact h
  | cons m rest ih =>
      exact ih _ (addToGroups_issuers groups m h)

/-- C10: the groups returned by `groupMessages` partition the input — the
concatenation of the groups' message lists is exactly the input in its
original order, and every message in a group carries the group's
`userId` as its `issuer_id`. -/
theorem C10_groupMessages_partition (msgs : List MessageResponse) :
    concatGroups (groupMessages msgs) = msgs ∧
    ∀ g ∈ groupMessages msgs, ∀ m ∈ g.messages,
      m.issuer_id = g.userId := by
  constructor
  · rw [groupMessages, foldl_addToGroups_concatGroups]
    rfl
  · exact foldl_addToGroups_issuers msgs [] (by intro g hg; cases hg)

/-- Concrete instantiation of C10: grouping two sample messages yields a
single group whose concatenation is the input and whose `userId` matches
the messages' issuer. -/
theorem C10_groupMessages_partition_witness :
    concatGroups (groupMessages [sampleMessage, sampleMessage]) =
      [sampleMessage, sampleMessage] ∧
    sampleMessage.issuer_id =
      ({ userId := "u1", messages := [sampleMessage, sampleMessage],
         timestamp := some 0 } : MessageGroup).userId :=
  ⟨(C10_groupMessages_partition [sampleMessage, sampleMessage]).1,
   (C10_groupMessages_partition [sampleMessage, sampleMessage]).2
     { userId := "u1", messages := [sampleMessage, sampleMessage],
       timestamp := some 0 }
     (by decide) sampleMessage (by decide)⟩
